import Mathlib

/-!
Shallow embedding of the sustainability-impact estimator (`src/app.py`).
Real-valued Python arithmetic is modelled over `ℚ`; decimal literals such as
`78.3` denote the exact rational. Code that only runs conditionally (guarded
blocks, variables that may be absent from `locals()`) is modelled with
`Option`.
-/

namespace Pen

/-- Constant from app.py line 9: baseline daily per-capita water usage (L/day). -/
def DEFAULT_PER_CAPITA_WATER_USAGE : ℚ := 305

/-- Constant from app.py line 10: energy per cubic meter of supplied water (kWh/m³). -/
def ENERGY_PER_CUBIC_METER_WATER_SUPPLY : ℚ := 0.5

/-- Constant from app.py line 11: energy to heat one liter of water (kWh/L). -/
def ENERGY_TO_HEAT_1L_WATER : ℚ := 0.029

/-- Constant from app.py line 12: kg CO2 per kWh. -/
def CO2_PER_KWH : ℚ := 0.4

/-- Constant from app.py line 13: kg CO2 absorbed per tree per year. -/
def CO2_ABSORBED_PER_TREE_PER_YEAR : ℚ := 21

/-- Constant from app.py line 15: the tier rates of the single contract type
(저압) in `BASE_COST_PER_KWH`, won/kWh. -/
def BASE_COST_PER_KWH : List ℚ := [78.3, 147.3, 215.6]

/-- Constant from app.py line 16: tier thresholds in kWh. -/
def TIER_THRESHOLDS : List ℚ := [200, 400]

/-- Constant from app.py line 17. -/
def VAT_RATE : ℚ := 0.1

/-- Constant from app.py line 18. -/
def ELECTRICITY_FUND_RATE : ℚ := 0.037

/-- Constant from app.py line 22: grams CO2eq per kWh of electricity. -/
def CO2_EMISSION_FACTOR_G_PER_KWH : ℚ := 409

/-- Result of `calculate_monthly_bill` (app.py line 45 returns the tuple
`(total_bill, energy_charge, electricity_fund, vat)`). -/
structure Bill where
  total_bill : ℚ
  energy_charge : ℚ
  electricity_fund : ℚ
  vat : ℚ
  deriving DecidableEq, Repr

/-- The base fee set at app.py line 40 (`base_fee = 0`). -/
def base_fee : ℚ := 0

/-- app.py lines 25-45, `calculate_monthly_bill(kwh_usage)` for the single
contract type "저압": progressive three-band energy charge with inclusive
upper bounds, then fund surcharge, VAT and total. -/
def calculate_monthly_bill (kwh_usage : ℚ) : Bill :=
  let tier_costs := BASE_COST_PER_KWH
  let tier_thresholds := TIER_THRESHOLDS
  let energy_charge :=
    if kwh_usage ≤ tier_thresholds.getD 0 0 then
      kwh_usage * tier_costs.getD 0 0
    else if kwh_usage ≤ tier_thresholds.getD 1 0 then
      tier_thresholds.getD 0 0 * tier_costs.getD 0 0
        + (kwh_usage - tier_thresholds.getD 0 0) * tier_costs.getD 1 0
    else
      tier_thresholds.getD 0 0 * tier_costs.getD 0 0
        + (tier_thresholds.getD 1 0 - tier_thresholds.getD 0 0) * tier_costs.getD 1 0
        + (kwh_usage - tier_thresholds.getD 1 0) * tier_costs.getD 2 0
  let electricity_fund := energy_charge * ELECTRICITY_FUND_RATE
  let vat := (energy_charge + electricity_fund) * VAT_RATE
  let total_bill := base_fee + energy_charge + electricity_fund + vat
  ⟨total_bill, energy_charge, electricity_fund, vat⟩

/-- app.py lines 47-48, `count_months(start_date, end_date)`. Dates are
modelled by their year/month/day fields (Python `datetime.date`). -/
structure Date where
  year : ℤ
  month : ℤ
  day : ℤ
  deriving DecidableEq, Repr

/-- The ordering `start_date <= end_date` on `datetime.date`: lexicographic on
(year, month, day). -/
def Date.le (a b : Date) : Prop :=
  a.year < b.year ∨
    (a.year = b.year ∧ (a.month < b.month ∨ (a.month = b.month ∧ a.day ≤ b.day)))

/-- app.py line 48: inclusive month count
`(end.year - start.year) * 12 + (end.month - start.month) + 1`. -/
def count_months (start_date end_date : Date) : ℤ :=
  (end_date.year - start_date.year) * 12 + (end_date.month - start_date.month) + 1

/-- The quantities computed by the electricity-saving analysis block,
app.py lines 77-91. -/
structure ElectricityAnalysis where
  total_saved_kwh : ℚ
  saved_percent : ℚ
  total_saved_won : ℚ
  co2_before_kg : ℚ
  co2_after_kg : ℚ
  total_co2_saved_kg : ℚ
  deriving DecidableEq, Repr

/-- app.py lines 77-91: the electricity-saving analysis run when the button is
pressed, for inputs `usage_before`, `usage_after` and the month count
`num_months` obtained from `count_months`. -/
def electricity_analysis (usage_before usage_after : ℚ) (num_months : ℤ) :
    ElectricityAnalysis :=
  let saved_kwh_per_month := usage_before - usage_after
  let total_saved_kwh := saved_kwh_per_month * num_months
  let saved_percent := (saved_kwh_per_month / usage_before) * 100
  let original_bill := (calculate_monthly_bill usage_before).total_bill
  let reduced_bill := (calculate_monthly_bill usage_after).total_bill
  let saved_won_per_month := original_bill - reduced_bill
  let total_saved_won := saved_won_per_month * num_months
  let co2_before_kg := (usage_before * CO2_EMISSION_FACTOR_G_PER_KWH * num_months) / 1000
  let co2_after_kg := (usage_after * CO2_EMISSION_FACTOR_G_PER_KWH * num_months) / 1000
  ⟨total_saved_kwh, saved_percent, total_saved_won, co2_before_kg, co2_after_kg,
    co2_before_kg - co2_after_kg⟩

/-- app.py line 107. -/
def NATIONAL_RATE : ℚ := 69.8

/-- app.py lines 117-121, `get_grade(rate)`: grade label, emoji and color for
a relative recycling rate. -/
def get_grade (rate : ℚ) : String × String × String :=
  if rate < 50 then ("낮음", "🔴", "#ff4444")
  else if rate < 75 then ("보통", "🟡", "#ffaa00")
  else if rate < 100 then ("높음", "🟢", "#00aa00")
  else ("매우 높음", "🔵", "#0066cc")

/-- The values computed by the recycling-rate block, app.py lines 114-123. -/
structure RecyclingResult where
  recycling_rate : ℚ
  relative_rate : ℚ
  grade : String × String × String
  deriving DecidableEq, Repr

/-- app.py lines 113-123: the recycling-rate evaluation, which runs only under
the guard `waste_amount > 0` (otherwise the block is skipped and nothing is
computed, modelled as `none`). -/
def recycling_block (waste_amount recycling_amount : ℚ) : Option RecyclingResult :=
  if waste_amount > 0 then
    let recycling_rate := (recycling_amount / waste_amount) * 100
    let relative_rate := (recycling_rate / NATIONAL_RATE) * 100
    some ⟨recycling_rate, relative_rate, get_grade relative_rate⟩
  else none

/-- app.py line 160: `daily_saving = DEFAULT_PER_CAPITA_WATER_USAGE - user_daily_water_usage`. -/
def daily_saving (user_daily_water_usage : ℚ) : ℚ :=
  DEFAULT_PER_CAPITA_WATER_USAGE - user_daily_water_usage

/-- app.py line 161: `annual_saving_liters = daily_saving * 365`. -/
def annual_saving_liters (user_daily_water_usage : ℚ) : ℚ :=
  daily_saving user_daily_water_usage * 365

/-- The values computed by the water-saving simulator when
`daily_saving > 0`, app.py lines 163-172. -/
structure WaterResult where
  hot_water_saving_liters : ℚ
  cold_water_supply_saving_cubic_meters : ℚ
  total_energy_saved_kwh : ℚ
  co2_reduced_kg : ℚ
  equivalent_trees : ℚ
  deriving DecidableEq, Repr

/-- app.py lines 163-172: the water-saving computation, which runs only under
the guard `daily_saving > 0`; otherwise nothing is computed (the script shows
an info message instead), modelled as `none`. -/
def water_sim (user_daily_water_usage : ℚ) : Option WaterResult :=
  let saving := daily_saving user_daily_water_usage
  let annual := annual_saving_liters user_daily_water_usage
  if saving > 0 then
    let hot_water_saving_liters := annual * 0.40
    let cold_water_supply_saving_cubic_meters := (annual * 0.60) / 1000
    let energy_saved_from_hot_water := hot_water_saving_liters * ENERGY_TO_HEAT_1L_WATER
    let energy_saved_from_cold_supply :=
      cold_water_supply_saving_cubic_meters * ENERGY_PER_CUBIC_METER_WATER_SUPPLY
    let total_energy_saved_kwh := energy_saved_from_hot_water + energy_saved_from_cold_supply
    let co2_reduced_kg := total_energy_saved_kwh * CO2_PER_KWH
    some ⟨hot_water_saving_liters, cold_water_supply_saving_cubic_meters,
      total_energy_saved_kwh, co2_reduced_kg,
      co2_reduced_kg / CO2_ABSORBED_PER_TREE_PER_YEAR⟩
  else none

/-- The transport modes offered by the radio button at app.py line 185. -/
inductive TransportMode where
  | car
  | bus
  | subway
  | bikeWalk
  deriving DecidableEq, Repr

/-- app.py lines 188-193, the `emission_factors` dict: 자동차 (car) 0.170,
버스 (bus) 0.093, 지하철 (subway) 0.091, 자전거/도보 (bike/walk) 0.056. -/
def emission_factors : TransportMode → ℚ
  | .car => 0.170
  | .bus => 0.093
  | .subway => 0.091
  | .bikeWalk => 0.056

/-- app.py line 195: `daily_co2 = emission_factors[mode] * distance`. -/
def daily_co2 (mode : TransportMode) (distance : ℚ) : ℚ :=
  emission_factors mode * distance

/-- app.py line 196: `annual_co2 = daily_co2 * 365`. -/
def annual_co2 (mode : TransportMode) (distance : ℚ) : ℚ :=
  daily_co2 mode distance * 365

/-- The unit label attached to the daily transport figure in the display at
app.py line 198 (`f"{daily_co2:,.1f}g CO₂e"`). -/
def daily_co2_display_unit : String := "g CO₂e"

/-- The unit label attached to the annual transport figure in the display at
app.py line 199 (`f"{annual_co2:,.1f}kg CO₂e"`). -/
def annual_co2_display_unit : String := "kg CO₂e"

/-- The waste-handling methods offered by the radio button at app.py line 201. -/
inductive WasteMethod where
  | fullSeparation
  | mixedCollection
  deriving DecidableEq, Repr

/-- app.py lines 203-208, the `emission` dict: 전면 분리수거 (full separation)
203, 부분 혼합 수거 (partial mixed collection) 193; `tresh_co2` is the lookup. -/
def tresh_co2 : WasteMethod → ℚ
  | .fullSeparation => 203
  | .mixedCollection => 193

/-- app.py line 213. -/
def World_AVERAGE_CO2_KG : ℚ := 4800

/-- app.py line 214: `water_co2_total = user_daily_water_usage * 0.01`. -/
def water_co2_total (user_daily_water_usage : ℚ) : ℚ :=
  user_daily_water_usage * 0.01

/-- app.py line 217: `co2_after_kg if 'co2_after_kg' in locals() else 0`.
`co2_after_kg` is in `locals()` exactly when the electricity-analysis button
block ran, modelled by an `Option ℚ` holding its value. -/
def total_co2_electricity (co2_after_kg : Option ℚ) : ℚ :=
  co2_after_kg.getD 0

/-- app.py line 218: `water_co2_total if 'co2_reduced_kg' in locals() else 0`.
`co2_reduced_kg` is in `locals()` exactly when the water simulator block ran,
i.e. when `daily_saving > 0` (`(water_sim _).isSome`); note the value used is
`water_co2_total`, not `co2_reduced_kg`. -/
def total_co2_water (user_daily_water_usage : ℚ) : ℚ :=
  if (water_sim user_daily_water_usage).isSome then
    water_co2_total user_daily_water_usage
  else 0

/-- app.py line 219: `annual_co2 if 'annual_co2' in locals() else 0`;
`annual_co2` is always in scope (line 196 runs unconditionally). -/
def total_co2_transport (mode : TransportMode) (distance : ℚ) : ℚ :=
  annual_co2 mode distance

/-- app.py line 224: `1300 if add_fixed_emission else 0`. -/
def fixed_emission_value (add_fixed_emission : Bool) : ℚ :=
  if add_fixed_emission then 1300 else 0

/-- app.py line 228:
`total_annual_co2_kg = total_co2_electricity + total_co2_water +
total_co2_transport + tresh_co2 + fixed_emission_value`, as a function of the
four domain terms and the toggle. -/
def total_annual_co2_kg (elec water transport waste : ℚ)
    (add_fixed_emission : Bool) : ℚ :=
  elec + water + transport + waste + fixed_emission_value add_fixed_emission

/-- app.py line 231: `delta_kg = World_AVERAGE_CO2_KG - total_annual_co2_kg`. -/
def delta_kg (elec water transport waste : ℚ) (add_fixed_emission : Bool) : ℚ :=
  World_AVERAGE_CO2_KG - total_annual_co2_kg elec water transport waste add_fixed_emission

/-- app.py lines 217-228 composed as the script computes them: the aggregate
total as a function of the program state (whether the electricity block ran
and its `co2_after_kg`, the water slider value, the transport mode and
distance, the waste method, and the fixed-emission toggle). -/
def program_total (co2_after_kg : Option ℚ) (user_daily_water_usage : ℚ)
    (mode : TransportMode) (distance : ℚ) (method : WasteMethod)
    (add_fixed_emission : Bool) : ℚ :=
  total_annual_co2_kg (total_co2_electricity co2_after_kg)
    (total_co2_water user_daily_water_usage)
    (total_co2_transport mode distance) (tresh_co2 method) add_fixed_emission

/-! ### Helper lemmas -/

/-- Closed form of the energy charge of `calculate_monthly_bill`. -/
theorem energy_charge_eq (u : ℚ) :
    (calculate_monthly_bill u).energy_charge =
      if u ≤ 200 then u * 78.3
      else if u ≤ 400 then 200 * 78.3 + (u - 200) * 147.3
      else 200 * 78.3 + 200 * 147.3 + (u - 400) * 215.6 := by
  simp only [calculate_monthly_bill, BASE_COST_PER_KWH, TIER_THRESHOLDS,
    List.getD_cons_zero, List.getD_cons_succ]
  split_ifs <;> norm_num

/-- The fund surcharge is the energy charge times the fund rate. -/
theorem electricity_fund_eq (u : ℚ) :
    (calculate_monthly_bill u).electricity_fund
      = (calculate_monthly_bill u).energy_charge * ELECTRICITY_FUND_RATE := rfl

/-- VAT is (energy charge + fund) times the VAT rate. -/
theorem vat_eq (u : ℚ) :
    (calculate_monthly_bill u).vat
      = ((calculate_monthly_bill u).energy_charge
          + (calculate_monthly_bill u).electricity_fund) * VAT_RATE := rfl

/-- The total bill is base fee plus charge plus fund plus VAT. -/
theorem total_bill_eq (u : ℚ) :
    (calculate_monthly_bill u).total_bill
      = base_fee + (calculate_monthly_bill u).energy_charge
        + (calculate_monthly_bill u).electricity_fund
        + (calculate_monthly_bill u).vat := rfl

/-- The energy charge is non-negative for non-negative usage. -/
theorem energy_charge_nonneg (u : ℚ) (hu : 0 ≤ u) :
    0 ≤ (calculate_monthly_bill u).energy_charge := by
  rw [energy_charge_eq]
  split_ifs with h1 h2 <;> nlinarith

/-- The water-saving block produces a result exactly when the daily saving is
positive. -/
theorem water_sim_isSome_iff (d : ℚ) :
    (water_sim d).isSome = true ↔ 0 < daily_saving d := by
  simp only [water_sim]
  split_ifs with h <;> simp [h]

/-! ### Claim theorems -/

/-- C2: for every non-negative usage `u`, the energy charge of
`calculate_monthly_bill` follows the three-band progressive marginal schedule
with thresholds 200 and 400 kWh and rates 78.3, 147.3, 215.6 won/kWh, with a
usage exactly on a threshold priced in the lower band. -/
theorem C2_energy_charge_bands (u : ℚ) (hu : 0 ≤ u) :
    (u ≤ 200 → (calculate_monthly_bill u).energy_charge = u * 78.3) ∧
    (200 < u → u ≤ 400 →
      (calculate_monthly_bill u).energy_charge = 200 * 78.3 + (u - 200) * 147.3) ∧
    (400 < u →
      (calculate_monthly_bill u).energy_charge
        = 200 * 78.3 + 200 * 147.3 + (u - 400) * 215.6) := by
  refine ⟨fun h => ?_, fun h1 h2 => ?_, fun h => ?_⟩
  · rw [energy_charge_eq, if_pos h]
  · rw [energy_charge_eq, if_neg (not_le.mpr h1), if_pos h2]
  · rw [energy_charge_eq, if_neg (not_le.mpr (by linarith)), if_neg (not_le.mpr h)]

/-- Witness for C2 at the concrete usage 500 kWh (top band). -/
theorem C2_witness :
    (calculate_monthly_bill 500).energy_charge
      = 200 * 78.3 + 200 * 147.3 + 100 * 215.6 := by
  have h := (C2_energy_charge_bands 500 (by norm_num)).2.2 (by norm_num)
  rw [h]; norm_num

/-- C7: for every non-negative usage, fund = energyCharge × fundRate,
vat = (energyCharge + fund) × vatRate, total = base fee + energyCharge + fund
+ vat with the (zero) base fee, all components non-negative; and at usage 0
every component is zero except the base fee (which is itself 0). -/
theorem C7_bill_components (u : ℚ) (hu : 0 ≤ u) :
    (calculate_monthly_bill u).electricity_fund
      = (calculate_monthly_bill u).energy_charge * ELECTRICITY_FUND_RATE ∧
    (calculate_monthly_bill u).vat
      = ((calculate_monthly_bill u).energy_charge
          + (calculate_monthly_bill u).electricity_fund) * VAT_RATE ∧
    (calculate_monthly_bill u).total_bill
      = base_fee + (calculate_monthly_bill u).energy_charge
        + (calculate_monthly_bill u).electricity_fund
        + (calculate_monthly_bill u).vat ∧
    0 ≤ (calculate_monthly_bill u).energy_charge ∧
    0 ≤ (calculate_monthly_bill u).electricity_fund ∧
    0 ≤ (calculate_monthly_bill u).vat ∧
    0 ≤ (calculate_monthly_bill u).total_bill ∧
    (calculate_monthly_bill 0).energy_charge = 0 ∧
    (calculate_monthly_bill 0).electricity_fund = 0 ∧
    (calculate_monthly_bill 0).vat = 0 ∧
    (calculate_monthly_bill 0).total_bill = base_fee := by
  have hec := energy_charge_nonneg u hu
  have hz : (calculate_monthly_bill 0).energy_charge = 0 := by
    rw [energy_charge_eq]; norm_num
  refine ⟨electricity_fund_eq u, vat_eq u, total_bill_eq u, hec, ?_, ?_, ?_,
    hz, ?_, ?_, ?_⟩
  · rw [electricity_fund_eq, ELECTRICITY_FUND_RATE]; nlinarith
  · rw [vat_eq, electricity_fund_eq, ELECTRICITY_FUND_RATE, VAT_RATE]; nlinarith
  · rw [total_bill_eq, vat_eq, electricity_fund_eq, ELECTRICITY_FUND_RATE,
      VAT_RATE, base_fee]
    nlinarith
  · rw [electricity_fund_eq, hz]; norm_num
  · rw [vat_eq, electricity_fund_eq, hz]; norm_num
  · rw [total_bill_eq, vat_eq, electricity_fund_eq, hz]; norm_num

/-- Witness for C7 at the concrete usage 0. -/
theorem C7_witness : (calculate_monthly_bill 0).total_bill = base_fee :=
  (C7_bill_components 0 (by norm_num)).2.2.2.2.2.2.2.2.2.2

/-- C3: the aggregate returns total = co2After + waterCo2 + transportCo2 +
wasteCo2 + (1300 if includeFixed else 0) and delta = 4800 − total; with all
domain terms 0 and the fixed baseline included, total = co2After + 1300 and
delta = 4800 − total. -/
theorem C3_aggregate (co2After waterCo2 transportCo2 wasteCo2 : ℚ)
    (includeFixed : Bool) :
    total_annual_co2_kg co2After waterCo2 transportCo2 wasteCo2 includeFixed
      = co2After + waterCo2 + transportCo2 + wasteCo2
        + (if includeFixed then 1300 else 0) ∧
    delta_kg co2After waterCo2 transportCo2 wasteCo2 includeFixed
      = 4800 - total_annual_co2_kg co2After waterCo2 transportCo2 wasteCo2
          includeFixed ∧
    total_annual_co2_kg co2After 0 0 0 true = co2After + 1300 ∧
    delta_kg co2After 0 0 0 true
      = 4800 - total_annual_co2_kg co2After 0 0 0 true := by
  refine ⟨rfl, rfl, ?_, rfl⟩
  simp [total_annual_co2_kg, fixed_emission_value]

/-- C5: for usageBefore > 0 and usageAfter ≤ usageBefore over m months, the
electricity-saving analysis yields savedKwh = (before − after) × m,
savedPercent = (before − after)/before × 100, savedWon = (bill(before).total −
bill(after).total) × m, and CO2 before/after = usage × 409 × m / 1000; in
particular at (400, 300, 1) savedKwh = 100 and savedPercent = 25. -/
theorem C5_electricity_delta (b a : ℚ) (m : ℤ) (hb : 0 < b) (hab : a ≤ b) :
    (electricity_analysis b a m).total_saved_kwh = (b - a) * (m : ℚ) ∧
    (electricity_analysis b a m).saved_percent = (b - a) / b * 100 ∧
    (electricity_analysis b a m).total_saved_won
      = ((calculate_monthly_bill b).total_bill
          - (calculate_monthly_bill a).total_bill) * (m : ℚ) ∧
    (electricity_analysis b a m).co2_before_kg = b * 409 * (m : ℚ) / 1000 ∧
    (electricity_analysis b a m).co2_after_kg = a * 409 * (m : ℚ) / 1000 ∧
    (electricity_analysis 400 300 1).total_saved_kwh = 100 ∧
    (electricity_analysis 400 300 1).saved_percent = 25 := by
  refine ⟨rfl, rfl, rfl, rfl, rfl, ?_, ?_⟩ <;>
    norm_num [electricity_analysis]

/-- Witness for C5 at the concrete inputs (400, 300, 1). -/
theorem C5_witness : (electricity_analysis 400 300 1).total_saved_kwh = 100 :=
  (C5_electricity_delta 400 300 1 (by norm_num) (by norm_num)).2.2.2.2.2.1

/-- C8: for all dates start ≤ end (with valid month fields), `count_months`
equals (end.year − start.year) × 12 + (end.month − start.month) + 1, is at
least 1, is independent of the day-of-month of either date, and gives 1 on
(2024-01-15, 2024-01-20) and 3 on (2024-01-01, 2024-03-01). -/
theorem C8_count_months (s e : Date)
    (hs1 : 1 ≤ s.month) (hs2 : s.month ≤ 12)
    (he1 : 1 ≤ e.month) (he2 : e.month ≤ 12)
    (hle : Date.le s e) :
    count_months s e = (e.year - s.year) * 12 + (e.month - s.month) + 1 ∧
    1 ≤ count_months s e ∧
    (∀ d d' : ℤ,
      count_months ⟨s.year, s.month, d⟩ ⟨e.year, e.month, d'⟩
        = count_months s e) ∧
    count_months ⟨2024, 1, 15⟩ ⟨2024, 1, 20⟩ = 1 ∧
    count_months ⟨2024, 1, 1⟩ ⟨2024, 3, 1⟩ = 3 := by
  refine ⟨rfl, ?_, fun d d' => rfl, by decide, by decide⟩
  unfold count_months
  unfold Date.le at hle
  omega

/-- Witness for C8 at the concrete dates 2024-01-01 and 2024-03-01. -/
theorem C8_witness : count_months ⟨2024, 1, 1⟩ ⟨2024, 3, 1⟩ = 3 :=
  (C8_count_months ⟨2024, 1, 1⟩ ⟨2024, 3, 1⟩ (by decide) (by decide)
    (by decide) (by decide) (Or.inr ⟨rfl, Or.inl (by decide)⟩)).1

/-- C9: for wasteAmount > 0 and recycledAmount in [0, wasteAmount], the
recycling block yields rate = recycled/waste × 100 and relativeRate =
rate/69.8 × 100, graded "낮음" (low) below 50, "보통" (moderate) on [50, 75),
"높음" (high) on [75, 100) and "매우 높음" (very high) at or above 100; at
(1000, 300) rate = 30, relativeRate = 3000/69.8 (within 0.01 of 42.98) and
the grade is "낮음" (low). -/
theorem C9_recycling (w rc : ℚ) (hw : 0 < w) (h0 : 0 ≤ rc) (hcw : rc ≤ w) :
    ∃ r, recycling_block w rc = some r ∧
      r.recycling_rate = rc / w * 100 ∧
      r.relative_rate = r.recycling_rate / NATIONAL_RATE * 100 ∧
      (r.relative_rate < 50 → r.grade.1 = "낮음") ∧
      (50 ≤ r.relative_rate → r.relative_rate < 75 → r.grade.1 = "보통") ∧
      (75 ≤ r.relative_rate → r.relative_rate < 100 → r.grade.1 = "높음") ∧
      (100 ≤ r.relative_rate → r.grade.1 = "매우 높음") ∧
      recycling_block 1000 300
        = some ⟨30, 3000 / 69.8, ("낮음", "🔴", "#ff4444")⟩ ∧
      |3000 / 69.8 - (42.98 : ℚ)| < 0.01 := by
  have hsome : recycling_block w rc
      = some ⟨rc / w * 100, rc / w * 100 / NATIONAL_RATE * 100,
          get_grade (rc / w * 100 / NATIONAL_RATE * 100)⟩ := by
    unfold recycling_block
    rw [if_pos hw]
  refine ⟨_, hsome, rfl, rfl, fun h => ?_, fun h1 h2 => ?_, fun h1 h2 => ?_,
    fun h => ?_, ?_, ?_⟩
  · simp only [get_grade]
    rw [if_pos h]
  · simp only [get_grade]
    rw [if_neg (not_lt.mpr h1), if_pos h2]
  · simp only [get_grade]
    rw [if_neg (not_lt.mpr (by linarith)), if_neg (not_lt.mpr h1), if_pos h2]
  · simp only [get_grade]
    rw [if_neg (not_lt.mpr (by linarith)), if_neg (not_lt.mpr (by linarith)),
      if_neg (not_lt.mpr h)]
  · norm_num [recycling_block, get_grade, NATIONAL_RATE]
  · rw [abs_lt]
    constructor <;> norm_num

/-- Witness for C9 at the concrete inputs (1000, 300). -/
theorem C9_witness :
    recycling_block 1000 300
      = some ⟨30, 3000 / 69.8, ("낮음", "🔴", "#ff4444")⟩ := by
  have h := C9_recycling 1000 300 (by norm_num) (by norm_num) (by norm_num)
  obtain ⟨r, -, -, -, -, -, -, -, hc, -⟩ := h
  exact hc

/-- C10: for every transport mode and distance, dailyCo2 = factor × km with
the literal factors car 0.170, bus 0.093, subway 0.091, bike/walk 0.056,
annualCo2 = dailyCo2 × 365, and the display labels the daily figure in grams
and the annual figure in kg at the same numeric scale. -/
theorem C10_transport (mode : TransportMode) (km : ℚ) (hkm : 0 ≤ km) :
    daily_co2 mode km = emission_factors mode * km ∧
    annual_co2 mode km = daily_co2 mode km * 365 ∧
    emission_factors .car = 0.170 ∧
    emission_factors .bus = 0.093 ∧
    emission_factors .subway = 0.091 ∧
    emission_factors .bikeWalk = 0.056 ∧
    daily_co2_display_unit = "g CO₂e" ∧
    annual_co2_display_unit = "kg CO₂e" :=
  ⟨rfl, rfl, rfl, rfl, rfl, rfl, rfl, rfl⟩

/-- Witness for C10 at the concrete inputs (car, 10 km). -/
theorem C10_witness : daily_co2 .car 10 = emission_factors .car * 10 :=
  (C10_transport .car 10 (by norm_num)).1

/-- C6: for daily water usage d in [0, 500] with saving s = 305 − d: when
s > 0 the simulator returns annual liters = s × 365, total energy =
(0.40 × annual) × 0.029 + (0.60 × annual / 1000) × 0.5, co2 = energy × 0.4
and trees = co2/21; when s ≤ 0 it returns nothing (zero/neutral); at d = 305
the saving is 0 and no result is produced; at d = 100 the energy is 890.4175
(within 0.1 of 890.48) and the co2 is 356.167 (within 0.1 of 356.19). -/
theorem C6_water (d : ℚ) (h0 : 0 ≤ d) (h500 : d ≤ 500) :
    (0 < daily_saving d →
      ∃ r, water_sim d = some r ∧
        annual_saving_liters d = daily_saving d * 365 ∧
        r.total_energy_saved_kwh
          = annual_saving_liters d * 0.40 * 0.029
            + annual_saving_liters d * 0.60 / 1000 * 0.5 ∧
        r.co2_reduced_kg = r.total_energy_saved_kwh * 0.4 ∧
        r.equivalent_trees = r.co2_reduced_kg / 21) ∧
    (daily_saving d ≤ 0 → water_sim d = none) ∧
    daily_saving 305 = 0 ∧
    water_sim 305 = none ∧
    water_sim 100 = some ⟨29930, 44.895, 890.4175, 356.167, 356.167 / 21⟩ ∧
    |(890.4175 : ℚ) - 890.48| < 0.1 ∧
    |(356.167 : ℚ) - 356.19| < 0.1 := by
  refine ⟨fun hpos => ?_, fun hz => ?_, ?_, ?_, ?_, ?_, ?_⟩
  · have hsome : water_sim d
        = some ⟨annual_saving_liters d * 0.40,
            annual_saving_liters d * 0.60 / 1000,
            annual_saving_liters d * 0.40 * ENERGY_TO_HEAT_1L_WATER
              + annual_saving_liters d * 0.60 / 1000
                * ENERGY_PER_CUBIC_METER_WATER_SUPPLY,
            (annual_saving_liters d * 0.40 * ENERGY_TO_HEAT_1L_WATER
              + annual_saving_liters d * 0.60 / 1000
                * ENERGY_PER_CUBIC_METER_WATER_SUPPLY) * CO2_PER_KWH,
            (annual_saving_liters d * 0.40 * ENERGY_TO_HEAT_1L_WATER
              + annual_saving_liters d * 0.60 / 1000
                * ENERGY_PER_CUBIC_METER_WATER_SUPPLY) * CO2_PER_KWH
              / CO2_ABSORBED_PER_TREE_PER_YEAR⟩ := by
      unfold water_sim
      rw [if_pos hpos]
    exact ⟨_, hsome, rfl, rfl, rfl, rfl⟩
  · unfold water_sim
    rw [if_neg (not_lt.mpr hz)]
  · norm_num [daily_saving, DEFAULT_PER_CAPITA_WATER_USAGE]
  · unfold water_sim
    rw [if_neg]
    norm_num [daily_saving, DEFAULT_PER_CAPITA_WATER_USAGE]
  · norm_num [water_sim, daily_saving, annual_saving_liters,
      DEFAULT_PER_CAPITA_WATER_USAGE, ENERGY_TO_HEAT_1L_WATER,
      ENERGY_PER_CUBIC_METER_WATER_SUPPLY, CO2_PER_KWH,
      CO2_ABSORBED_PER_TREE_PER_YEAR]
  · rw [abs_lt]
    constructor <;> norm_num
  · rw [abs_lt]
    constructor <;> norm_num

/-- Witness for C6 at the concrete daily usage 100 L. -/
theorem C6_witness :
    water_sim 100 = some ⟨29930, 44.895, 890.4175, 356.167, 356.167 / 21⟩ :=
  (C6_water 100 (by norm_num) (by norm_num)).2.2.2.2.1

/-- C1 counterexample: in the program state with the electricity block run
(co2_after_kg = 0), daily water usage 100 L, zero transport distance, full
separation and the fixed baseline off, the aggregate total (204) differs from
the sum that uses the water simulator's co2_reduced_kg (0 + 356.167 + 0 + 203
+ 0): the aggregate's water term is dailyLiters × 0.01, not the water
estimator's co2Kg. -/
theorem C1_counterexample :
    program_total (some 0) 100 .car 0 .fullSeparation false
      ≠ total_co2_electricity (some 0)
        + ((water_sim 100).map WaterResult.co2_reduced_kg).getD 0
        + total_co2_transport .car 0 + tresh_co2 .fullSeparation
        + fixed_emission_value false := by
  norm_num [program_total, total_annual_co2_kg, total_co2_electricity,
    total_co2_water, water_co2_total, water_sim, daily_saving,
    annual_saving_liters, DEFAULT_PER_CAPITA_WATER_USAGE,
    ENERGY_TO_HEAT_1L_WATER, ENERGY_PER_CUBIC_METER_WATER_SUPPLY, CO2_PER_KWH,
    CO2_ABSORBED_PER_TREE_PER_YEAR, total_co2_transport, annual_co2, daily_co2,
    emission_factors, tresh_co2, fixed_emission_value]

/-- C1 (amended): the aggregate total equals electricity co2After (0 when the
electricity block did not run) plus a water term plus the transport
annualCo2Kg plus the waste co2Kg plus the 1300 kg baseline when toggled,
where the water term is dailyLiters × 0.01 when the water simulator produced a
result (saving > 0) and 0 otherwise — not the water estimator's co2Kg. -/
theorem C1_aggregate_water_term (co2_after : Option ℚ) (d : ℚ)
    (mode : TransportMode) (km : ℚ) (method : WasteMethod) (b : Bool) :
    program_total co2_after d mode km method b
      = total_co2_electricity co2_after
        + (if 0 < daily_saving d then d * 0.01 else 0)
        + annual_co2 mode km + tresh_co2 method
        + (if b then 1300 else 0) := by
  have hw : total_co2_water d = if 0 < daily_saving d then d * 0.01 else 0 := by
    unfold total_co2_water
    by_cases h : 0 < daily_saving d
    · rw [if_pos ((water_sim_isSome_iff d).mpr h), if_pos h]
      rfl
    · rw [if_neg (fun hs => h ((water_sim_isSome_iff d).mp hs)), if_neg h]
  unfold program_total total_annual_co2_kg total_co2_transport
    fixed_emission_value
  rw [hw]

/-- C4 counterexample: the code does not fail with InvalidInput at malformed
input: the recycling block at (1000, 1500) (recycled > waste) still produces
a result, and `calculate_monthly_bill` at the negative usage −1 still returns
a bill, with energy charge −78.3 priced in the first band. -/
theorem C4_counterexample :
    (recycling_block 1000 1500).isSome = true ∧
    (calculate_monthly_bill (-1)).energy_charge = -78.3 := by
  constructor
  · norm_num [recycling_block]
  · rw [energy_charge_eq]
    norm_num

/-- C4 (amended): no calculator fails on malformed domain input. The
recycling block produces a result exactly when wasteAmount > 0 (it is
silently skipped otherwise), even when recycledAmount > wasteAmount: at
(1000, 1500) it returns rate 150, relative rate 15000/69.8, grade
"매우 높음" (very high). `calculate_monthly_bill` accepts any usage: a
negative usage is simply priced in the first band as u × 78.3. -/
theorem C4_no_invalid_input (w rc u : ℚ) :
    ((recycling_block w rc).isSome = true ↔ 0 < w) ∧
    recycling_block 1000 1500
      = some ⟨150, 15000 / 69.8, ("매우 높음", "🔵", "#0066cc")⟩ ∧
    (u < 0 → (calculate_monthly_bill u).energy_charge = u * 78.3) := by
  refine ⟨?_, ?_, fun h => ?_⟩
  · unfold recycling_block
    split_ifs with hw <;> simp [hw]
  · norm_num [recycling_block, get_grade, NATIONAL_RATE]
  · rw [energy_charge_eq, if_pos (by linarith : u ≤ 200)]

/-- Witness for the amended C4 at the concrete inputs (1000, 1500, −5). -/
theorem C4_no_invalid_input_witness :
    (calculate_monthly_bill (-5)).energy_charge = (-5) * 78.3 :=
  (C4_no_invalid_input 1000 1500 (-5)).2.2 (by norm_num)

end Pen
